import Mathlib

/-!
Shallow embedding of the `trust-game` crate (files `src/lib.rs`,
`src/governance.rs`).  Machine integers `u32`/`u64` are modelled as `Nat`
and `i32` as `Int` (no claim exercises overflow of those); Rust `f64`
arithmetic in the reputation calculator is modelled exactly over `ℚ`,
with `f64::round` (round half away from zero) as `rustRound` and the
saturating float-to-integer conversion `as u32` as `toU32`, which clamps
at `u32::MAX = 4294967295`.  Fallible methods taking `&mut self` are
modelled as functions returning the updated state paired with an
`Except String` result, the state reflecting exactly the mutations
performed before a `return Err`.
-/

namespace TrustGame

/-- Rust `Move` from `lib.rs`: a player's action. -/
inductive Move where
  | Cooperate : Move
  | Defect : Move
deriving DecidableEq, Repr

/-- Rust `RoundOutcome` from `lib.rs`. -/
structure RoundOutcome where
  move_1 : Move
  move_2 : Move
  payoff_1 : Int
  payoff_2 : Int
deriving DecidableEq, Repr

/-- Rust `PayoffMatrix` from `lib.rs`. -/
structure PayoffMatrix where
  r : Int
  s : Int
  t : Int
  p : Int
deriving DecidableEq, Repr

/-- Rust `PayoffMatrix::default` from `lib.rs` lines 122–131. -/
def PayoffMatrix.default : PayoffMatrix :=
  { r := 2, s := -1, t := 3, p := 0 }

/-- Rust `GameState` from `lib.rs`. -/
structure GameState where
  round : Nat
  total_rounds : Nat
  payoff_matrix : PayoffMatrix
  score_1 : Int
  score_2 : Int
  history_1 : List Move
  history_2 : List Move
deriving DecidableEq, Repr

/-- Rust `GameState::new` from `lib.rs` lines 154–164. -/
def GameState.new (total_rounds : Nat) : GameState :=
  { round := 0
    total_rounds := total_rounds
    payoff_matrix := PayoffMatrix.default
    score_1 := 0
    score_2 := 0
    history_1 := []
    history_2 := [] }

/-- Rust `get_payoffs` from `lib.rs` lines 181–192. -/
def get_payoffs (move_1 move_2 : Move) (payoff_matrix : PayoffMatrix) : Int × Int :=
  match move_1, move_2 with
  | Move.Cooperate, Move.Cooperate => (payoff_matrix.r, payoff_matrix.r)
  | Move.Cooperate, Move.Defect => (payoff_matrix.s, payoff_matrix.t)
  | Move.Defect, Move.Cooperate => (payoff_matrix.t, payoff_matrix.s)
  | Move.Defect, Move.Defect => (payoff_matrix.p, payoff_matrix.p)

/-- Rust `validate_tft_strategy` from `lib.rs` lines 232–248: round 0 requires
`Cooperate`; later rounds return `false` on an empty opponent history and
otherwise compare with `history_2[len - 1]`, i.e. the last element. -/
def validate_tft_strategy (state : GameState) (proposed_move : Move) : Bool :=
  if state.round = 0 then
    proposed_move = Move.Cooperate
  else
    match state.history_2.getLast? with
    | none => false
    | some last => proposed_move = last

/-- Rust `RoundValidator` from `lib.rs`: wraps a `GameState`. -/
structure RoundValidator where
  state : GameState
deriving DecidableEq, Repr

/-- Rust `RoundValidator::new` from `lib.rs` lines 283–285. -/
def RoundValidator.new (state : GameState) : RoundValidator :=
  { state := state }

/-- Rust `RoundValidator::play_round` from `lib.rs` lines 288–314: errors when
`round >= total_rounds`, otherwise pushes both moves, adds the payoffs to
the cumulative scores, increments `round` and returns the outcome. -/
def RoundValidator.play_round (rv : RoundValidator) (move_1 move_2 : Move) :
    RoundValidator × Except String RoundOutcome :=
  if rv.state.total_rounds ≤ rv.state.round then
    (rv, Except.error "Game already finished")
  else
    let pp := get_payoffs move_1 move_2 rv.state.payoff_matrix
    ({ state :=
        { rv.state with
          history_1 := rv.state.history_1 ++ [move_1]
          history_2 := rv.state.history_2 ++ [move_2]
          score_1 := rv.state.score_1 + pp.1
          score_2 := rv.state.score_2 + pp.2
          round := rv.state.round + 1 } },
     Except.ok { move_1 := move_1, move_2 := move_2, payoff_1 := pp.1, payoff_2 := pp.2 })

/-- Rust `RoundValidator::is_finished` from `lib.rs` lines 322–324. -/
def RoundValidator.is_finished (rv : RoundValidator) : Bool :=
  rv.state.total_rounds ≤ rv.state.round

/-- Repeated application of `play_round`; `none` as soon as one call fails. -/
def RoundValidator.playMany (rv : RoundValidator) : List (Move × Move) → Option RoundValidator
  | [] => some rv
  | m :: ms =>
    match rv.play_round m.1 m.2 with
    | (rv', Except.ok _) => rv'.playMany ms
    | (_, Except.error _) => none

/-- Rust `ProposalType` from `governance.rs`. -/
inductive ProposalType where
  | ChangePayoff : ProposalType
  | AddStrategy : ProposalType
  | ChangeGovernance : ProposalType
deriving DecidableEq, Repr

/-- Rust `Vote` from `governance.rs`: a voting choice. -/
inductive Vote where
  | Yes : Vote
  | No : Vote
  | Abstain : Vote
deriving DecidableEq, Repr

/-- Rust `GovernanceProposal` from `governance.rs`. -/
structure GovernanceProposal where
  id : Nat
  proposal_type : ProposalType
  description : String
  voting_round : Nat
  total_voting_rounds : Nat
  yes_votes : Nat
  no_votes : Nat
  abstain_votes : Nat
  yes_voting_power : Nat
  no_voting_power : Nat
  abstain_voting_power : Nat
  executed : Bool
deriving DecidableEq, Repr

/-- Rust `GovernanceProposal::new` from `governance.rs` lines 63–78. -/
def GovernanceProposal.new (id : Nat) (proposal_type : ProposalType)
    (description : String) : GovernanceProposal :=
  { id := id
    proposal_type := proposal_type
    description := description
    voting_round := 0
    total_voting_rounds := 3
    yes_votes := 0
    no_votes := 0
    abstain_votes := 0
    yes_voting_power := 0
    no_voting_power := 0
    abstain_voting_power := 0
    executed := false }

/-- Rust `GovernanceProposal::is_voting_open` from `governance.rs` lines 81–83. -/
def GovernanceProposal.is_voting_open (p : GovernanceProposal) : Bool :=
  !p.executed && p.voting_round < p.total_voting_rounds

/-- Rust `GovernanceProposal::has_passed` from `governance.rs` lines 86–96. -/
def GovernanceProposal.has_passed (p : GovernanceProposal) : Bool :=
  let total_voting_power :=
    p.yes_voting_power + p.no_voting_power + p.abstain_voting_power
  if total_voting_power = 0 then
    false
  else
    total_voting_power / 2 < p.yes_voting_power

/-- Rust `PlayerVote` from `governance.rs`. -/
structure PlayerVote where
  address : String
  proposal_id : Nat
  vote : Vote
  voter_reputation : Nat
  voting_power : Nat
  timestamp : Nat
deriving DecidableEq, Repr

/-- Rust `VotingRound` from `governance.rs`. -/
structure VotingRound where
  proposal_id : Nat
  votes : List PlayerVote
  voted_addresses : List String
deriving DecidableEq, Repr

/-- Rust `VotingRound::new` from `governance.rs` lines 136–142. -/
def VotingRound.new (proposal_id : Nat) : VotingRound :=
  { proposal_id := proposal_id, votes := [], voted_addresses := [] }

/-- Rust `VotingRound::has_voted` from `governance.rs` lines 145–147. -/
def VotingRound.has_voted (vr : VotingRound) (address : String) : Bool :=
  vr.voted_addresses.contains address

/-- Rust `VotingRound::cast_vote` from `governance.rs` lines 150–177: rejects a
second vote from the same address, otherwise appends the `PlayerVote` and
the address.  The error path performs no mutation. -/
def VotingRound.cast_vote (vr : VotingRound) (address : String) (vote : Vote)
    (voter_reputation voting_power timestamp : Nat) :
    VotingRound × Except String Unit :=
  if vr.has_voted address then
    (vr, Except.error ("Player " ++ address ++ " has already voted"))
  else
    ({ vr with
        votes := vr.votes ++
          [{ address := address
             proposal_id := vr.proposal_id
             vote := vote
             voter_reputation := voter_reputation
             voting_power := voting_power
             timestamp := timestamp }]
        voted_addresses := vr.voted_addresses ++ [address] },
     Except.ok ())

/-- Rust `DependentApp` from `governance.rs`. -/
structure DependentApp where
  app_id : String
  app_name : String
  min_reputation_tier : Nat
  registered_at : Nat
deriving DecidableEq, Repr

/-- Rust `GovernanceState` from `governance.rs`. -/
structure GovernanceState where
  next_proposal_id : Nat
  proposals : List GovernanceProposal
  voting_rounds : List VotingRound
  dependent_apps : List DependentApp
deriving DecidableEq, Repr

/-- Rust `GovernanceState::new` from `governance.rs` lines 245–252. -/
def GovernanceState.new : GovernanceState :=
  { next_proposal_id := 1
    proposals := []
    voting_rounds := []
    dependent_apps := [] }

/-- Rust `GovernanceState::get_proposal` from `governance.rs` lines 273–275. -/
def GovernanceState.get_proposal (gs : GovernanceState) (id : Nat) :
    Option GovernanceProposal :=
  gs.proposals.find? (fun p => p.id == id)

/-- Rust `GovernanceState::create_proposal` from `governance.rs` lines 255–270. -/
def GovernanceState.create_proposal (gs : GovernanceState)
    (proposal_type : ProposalType) (description : String) :
    GovernanceState × Nat :=
  let id := gs.next_proposal_id
  ({ gs with
      next_proposal_id := id + 1
      proposals := gs.proposals ++ [GovernanceProposal.new id proposal_type description]
      voting_rounds := gs.voting_rounds ++ [VotingRound.new id] },
   id)

/-- Mutation through `GovernanceState::get_voting_round_mut` followed by
`VotingRound::cast_vote` (`governance.rs` lines 310–318): `iter_mut().find`
updates the first round whose `proposal_id` matches; when none matches the
`if let` is skipped and the call counts as successful. -/
def castVoteInRounds (rounds : List VotingRound) (proposal_id : Nat)
    (address : String) (vote : Vote) (voter_reputation voting_power timestamp : Nat) :
    List VotingRound × Except String Unit :=
  match rounds with
  | [] => ([], Except.ok ())
  | r :: rest =>
    if r.proposal_id == proposal_id then
      let cast := r.cast_vote address vote voter_reputation voting_power timestamp
      (cast.1 :: rest, cast.2)
    else
      let tail := castVoteInRounds rest proposal_id address vote voter_reputation
        voting_power timestamp
      (r :: tail.1, tail.2)

/-- Mutation through `GovernanceState::get_proposal_mut` (`governance.rs`
lines 278–280): applies `f` to the first proposal whose `id` matches, the
identity on the whole list when none matches. -/
def updateFirstProposal (ps : List GovernanceProposal) (id : Nat)
    (f : GovernanceProposal → GovernanceProposal) : List GovernanceProposal :=
  match ps with
  | [] => []
  | p :: rest =>
    if p.id == id then f p :: rest
    else p :: updateFirstProposal rest id f

/-- One vote of the manual retally loop inside `GovernanceState::vote`
(`governance.rs` lines 332–347). -/
def tallyStep (acc : GovernanceProposal) (pv : PlayerVote) : GovernanceProposal :=
  match pv.vote with
  | Vote.Yes =>
    { acc with
        yes_votes := acc.yes_votes + 1
        yes_voting_power := acc.yes_voting_power + pv.voting_power }
  | Vote.No =>
    { acc with
        no_votes := acc.no_votes + 1
        no_voting_power := acc.no_voting_power + pv.voting_power }
  | Vote.Abstain =>
    { acc with
        abstain_votes := acc.abstain_votes + 1
        abstain_voting_power := acc.abstain_voting_power + pv.voting_power }

/-- The manual retally inside `GovernanceState::vote` (`governance.rs`
lines 324–347): zeroes all six counters and folds over the vote list. -/
def tallyFrom (votes : List PlayerVote) (p : GovernanceProposal) : GovernanceProposal :=
  votes.foldl tallyStep
    { p with
        yes_votes := 0
        no_votes := 0
        abstain_votes := 0
        yes_voting_power := 0
        no_voting_power := 0
        abstain_voting_power := 0 }

/-- Rust `GovernanceState::vote` from `governance.rs` lines 290–352. -/
def GovernanceState.vote (gs : GovernanceState) (proposal_id : Nat)
    (address : String) (vote : Vote) (voter_reputation voting_power timestamp : Nat) :
    GovernanceState × Except String Unit :=
  match gs.get_proposal proposal_id with
  | none => (gs, Except.error "Proposal not found")
  | some p =>
    if !p.is_voting_open then
      (gs, Except.error "Voting period has ended")
    else
      let cast := castVoteInRounds gs.voting_rounds proposal_id address vote
        voter_reputation voting_power timestamp
      let gs1 : GovernanceState := { gs with voting_rounds := cast.1 }
      match cast.2 with
      | Except.error e => (gs1, Except.error e)
      | Except.ok _ =>
        match gs1.voting_rounds.find? (fun vr => vr.proposal_id == proposal_id) with
        | none => (gs1, Except.ok ())
        | some vr =>
          ({ gs1 with
              proposals := updateFirstProposal gs1.proposals proposal_id (tallyFrom vr.votes) },
           Except.ok ())

/-- Rust `GovernanceState::execute_proposal` from `governance.rs` lines 355–371. -/
def GovernanceState.execute_proposal (gs : GovernanceState) (proposal_id : Nat) :
    GovernanceState × Except String Bool :=
  match gs.get_proposal proposal_id with
  | none => (gs, Except.error "Proposal not found")
  | some p =>
    if p.executed then
      (gs, Except.error "Proposal already executed")
    else if p.has_passed then
      ({ gs with
          proposals := updateFirstProposal gs.proposals proposal_id
            (fun q => { q with executed := true }) },
       Except.ok true)
    else
      (gs, Except.ok false)

/-- Rust `GovernanceState::register_dependent_app` from `governance.rs` lines
387–411: rejects a duplicate `app_id`, otherwise appends a `DependentApp`
with `registered_at` hardcoded to `0` (the code comments "Would be block
height in real implementation"); the method takes no timestamp argument. -/
def GovernanceState.register_dependent_app (gs : GovernanceState)
    (app_id app_name : String) (min_reputation_tier : Nat) :
    GovernanceState × Except String Unit :=
  if gs.dependent_apps.any (fun app => app.app_id == app_id) then
    (gs, Except.error ("App " ++ app_id ++ " already registered"))
  else
    ({ gs with
        dependent_apps := gs.dependent_apps ++
          [{ app_id := app_id
             app_name := app_name
             min_reputation_tier := min_reputation_tier
             registered_at := 0 }] },
     Except.ok ())

/-- Written from the spec sentence for `register_dependent_app`
("appends with the current registration timestamp (supplied externally,
not self-generated)"): same duplicate check, but the caller passes the
registration timestamp and it is stored in `registered_at`.  Used only to
compare the code's behaviour against the spec's words. -/
def register_dependent_app_spec (gs : GovernanceState)
    (app_id app_name : String) (min_reputation_tier registered_at : Nat) :
    GovernanceState × Except String Unit :=
  if gs.dependent_apps.any (fun app => app.app_id == app_id) then
    (gs, Except.error ("App " ++ app_id ++ " already registered"))
  else
    ({ gs with
        dependent_apps := gs.dependent_apps ++
          [{ app_id := app_id
             app_name := app_name
             min_reputation_tier := min_reputation_tier
             registered_at := registered_at }] },
     Except.ok ())

/-- Repeated application of `GovernanceState::vote`; `none` as soon as one
call fails. -/
def GovernanceState.voteMany (gs : GovernanceState) :
    List (Nat × String × Vote × Nat × Nat × Nat) → Option GovernanceState
  | [] => some gs
  | a :: rest =>
    match gs.vote a.1 a.2.1 a.2.2.1 a.2.2.2.1 a.2.2.2.2.1 a.2.2.2.2.2 with
    | (gs1, Except.ok _) => gs1.voteMany rest
    | (_, Except.error _) => none

/-- The recorded votes for a proposal id: the vote list of the first
`VotingRound` carrying that id (the one `GovernanceState::vote` reads and
writes), empty when no such round exists. -/
def votesFor (gs : GovernanceState) (id : Nat) : List PlayerVote :=
  match gs.voting_rounds.find? (fun vr => vr.proposal_id == id) with
  | none => []
  | some vr => vr.votes

/-- Tally invariant: for every proposal that is the first carrier of its
id, the vote counters sum to the number of recorded votes for that id and
the power counters sum to their total voting power. -/
def tally_ok (gs : GovernanceState) : Prop :=
  ∀ p ∈ gs.proposals,
    gs.proposals.find? (fun q => q.id == p.id) = some p →
      p.yes_votes + p.no_votes + p.abstain_votes = (votesFor gs p.id).length ∧
      p.yes_voting_power + p.no_voting_power + p.abstain_voting_power =
        ((votesFor gs p.id).map (fun v => v.voting_power)).sum

/-! ### Closed forms for the reputation calculator -/

/-- C8: the Tit-for-Tat consistency check accepts exactly `Cooperate` at
round 0, and at round ≥ 1 exactly the opponent's last recorded move; with
an empty opponent history at round ≥ 1 it rejects every move. -/
theorem validate_tft_characterization (st : GameState) (m : Move) :
    (validate_tft_strategy st m = true ↔
      ((st.round = 0 ∧ m = Move.Cooperate)
        ∨ (1 ≤ st.round ∧ ∃ last, st.history_2.getLast? = some last ∧ m = last)))
    ∧ (1 ≤ st.round → st.history_2 = [] → validate_tft_strategy st m = false) := by
  constructor
  · by_cases h0 : st.round = 0
    · simp [validate_tft_strategy, h0]
    · have h1 : 1 ≤ st.round := Nat.one_le_iff_ne_zero.mpr h0
      cases hL : st.history_2.getLast? with
      | none => simp [validate_tft_strategy, h0, hL]
      | some last => simp [validate_tft_strategy, h0, hL, h1]
  · intro h1 hemp
    have hL : st.history_2.getLast? = none := by simp [hemp]
    simp [validate_tft_strategy, Nat.one_le_iff_ne_zero.mp h1, hL]

/-- C8 (witness): at round 1 with opponent history `[Defect]`, exactly
`Defect` is accepted; at round 1 with empty history, `Cooperate` is
rejected. -/
theorem validate_tft_characterization_witness :
    validate_tft_strategy
      { round := 1, total_rounds := 5, payoff_matrix := PayoffMatrix.default,
        score_1 := 0, score_2 := 0, history_1 := [Move.Cooperate],
        history_2 := [Move.Defect] } Move.Defect = true
    ∧ validate_tft_strategy
      { round := 1, total_rounds := 5, payoff_matrix := PayoffMatrix.default,
        score_1 := 0, score_2 := 0, history_1 := [], history_2 := [] }
      Move.Cooperate = false := by
  constructor
  · exact (validate_tft_characterization _ Move.Defect).1.mpr
      (Or.inr ⟨by norm_num, Move.Defect, by simp, rfl⟩)
  · exact (validate_tft_characterization _ Move.Cooperate).2 (by norm_num) rfl

/-- One step of `play_round` on an unfinished game: the exact state update. -/
theorem play_round_progress (rv : RoundValidator) (m1 m2 : Move)
    (h : rv.state.round < rv.state.total_rounds) :
    rv.play_round m1 m2 =
      ({ state :=
          { rv.state with
            history_1 := rv.state.history_1 ++ [m1]
            history_2 := rv.state.history_2 ++ [m2]
            score_1 := rv.state.score_1 + (get_payoffs m1 m2 rv.state.payoff_matrix).1
            score_2 := rv.state.score_2 + (get_payoffs m1 m2 rv.state.payoff_matrix).2
            round := rv.state.round + 1 } },
       Except.ok
        { move_1 := m1, move_2 := m2
          payoff_1 := (get_payoffs m1 m2 rv.state.payoff_matrix).1
          payoff_2 := (get_payoffs m1 m2 rv.state.payoff_matrix).2 }) := by
  rw [RoundValidator.play_round, if_neg (by omega)]

/-- Lemma: `playMany` succeeds whenever the remaining budget of rounds suffices,
advancing `round` and both histories by exactly the number of moves. -/
theorem playMany_progress (ms : List (Move × Move)) (rv : RoundValidator)
    (h : rv.state.round + ms.length ≤ rv.state.total_rounds) :
    ∃ rv', rv.playMany ms = some rv'
      ∧ rv'.state.round = rv.state.round + ms.length
      ∧ rv'.state.total_rounds = rv.state.total_rounds
      ∧ rv'.state.history_1.length = rv.state.history_1.length + ms.length
      ∧ rv'.state.history_2.length = rv.state.history_2.length + ms.length := by
  induction ms generalizing rv with
  | nil => exact ⟨rv, rfl, by simp, rfl, by simp, by simp⟩
  | cons m rest ih =>
    have hlt : rv.state.round < rv.state.total_rounds := by
      simp only [List.length_cons] at h
      omega
    have hp := play_round_progress rv m.1 m.2 hlt
    obtain ⟨rv', h1, h2, h3, h4, h5⟩ := ih
      { state :=
          { rv.state with
            history_1 := rv.state.history_1 ++ [m.1]
            history_2 := rv.state.history_2 ++ [m.2]
            score_1 := rv.state.score_1 + (get_payoffs m.1 m.2 rv.state.payoff_matrix).1
            score_2 := rv.state.score_2 + (get_payoffs m.1 m.2 rv.state.payoff_matrix).2
            round := rv.state.round + 1 } }
      (by simp only [List.length_cons] at h ⊢; omega)
    refine ⟨rv', ?_, ?_, ?_, ?_, ?_⟩
    · simp only [RoundValidator.playMany, hp]
      exact h1
    · simp only [List.length_cons]
      simp only at h2
      omega
    · simpa using h3
    · simp only [List.length_cons]
      simp only [List.length_append, List.length_cons, List.length_nil] at h4
      omega
    · simp only [List.length_cons]
      simp only [List.length_append, List.length_cons, List.length_nil] at h5
      omega

/-- C7: `play_round` fails with `GameFinished` exactly when
`round ≥ total_rounds`, leaving the state unchanged; otherwise it appends
one move to each history, adds the matrix payoffs to both scores,
increments `round` by one and returns the outcome; from a fresh game with
`n` rounds, any `k ≤ n` calls all succeed, `is_finished` holds afterwards
exactly when `k = n`, and thereafter one more call fails. -/
theorem play_round_lifecycle (rv : RoundValidator) (m1 m2 : Move)
    (n : Nat) (ms : List (Move × Move)) :
    (rv.state.total_rounds ≤ rv.state.round →
      rv.play_round m1 m2 = (rv, Except.error "Game already finished"))
    ∧ (rv.state.round < rv.state.total_rounds →
      rv.play_round m1 m2 =
        ({ state :=
            { rv.state with
              history_1 := rv.state.history_1 ++ [m1]
              history_2 := rv.state.history_2 ++ [m2]
              score_1 := rv.state.score_1 + (get_payoffs m1 m2 rv.state.payoff_matrix).1
              score_2 := rv.state.score_2 + (get_payoffs m1 m2 rv.state.payoff_matrix).2
              round := rv.state.round + 1 } },
         Except.ok
          { move_1 := m1, move_2 := m2
            payoff_1 := (get_payoffs m1 m2 rv.state.payoff_matrix).1
            payoff_2 := (get_payoffs m1 m2 rv.state.payoff_matrix).2 }))
    ∧ (ms.length ≤ n →
        ∃ rv', (RoundValidator.new (GameState.new n)).playMany ms = some rv'
          ∧ rv'.state.round = ms.length
          ∧ rv'.state.history_1.length = ms.length
          ∧ rv'.state.history_2.length = ms.length
          ∧ (rv'.is_finished = true ↔ ms.length = n)
          ∧ (ms.length = n →
              rv'.play_round m1 m2 = (rv', Except.error "Game already finished"))) := by
  refine ⟨?_, play_round_progress rv m1 m2, ?_⟩
  · intro hge
    rw [RoundValidator.play_round, if_pos hge]
  · intro hlen
    obtain ⟨rv', h1, h2, h3, h4, h5⟩ := playMany_progress ms (RoundValidator.new (GameState.new n))
      (by simp [RoundValidator.new, GameState.new]; omega)
    simp only [RoundValidator.new, GameState.new] at h2 h3 h4 h5
    refine ⟨rv', h1, by simpa using h2, by simpa using h4, by simpa using h5, ?_, ?_⟩
    · rw [RoundValidator.is_finished]
      simp only [decide_eq_true_eq, h3, RoundValidator.new, GameState.new]
      constructor
      · intro hle
        omega
      · intro he
        omega
    · intro he
      rw [RoundValidator.play_round, if_pos (by omega)]

/-- C7 (witness): a fresh two-round game survives exactly two calls and is
then finished. -/
theorem play_round_lifecycle_witness :
    ((RoundValidator.new (GameState.new 2)).playMany
        [(Move.Cooperate, Move.Cooperate), (Move.Defect, Move.Cooperate)]).map
      RoundValidator.is_finished = some true := by
  obtain ⟨rv', h1, -, -, -, hfin, -⟩ :=
    (play_round_lifecycle (RoundValidator.new (GameState.new 2)) Move.Cooperate Move.Cooperate
      2 [(Move.Cooperate, Move.Cooperate), (Move.Defect, Move.Cooperate)]).2.2 (by norm_num)
  rw [h1, Option.map]
  rw [hfin.mpr (by norm_num)]

/-! ### Governance ledger: helper lemmas -/

/-- The round produced by a successful `cast_vote`. -/
def votedRound (vr : VotingRound) (address : String) (vote : Vote)
    (voter_reputation voting_power timestamp : Nat) : VotingRound :=
  { vr with
      votes := vr.votes ++
        [{ address := address
           proposal_id := vr.proposal_id
           vote := vote
           voter_reputation := voter_reputation
           voting_power := voting_power
           timestamp := timestamp }]
      voted_addresses := vr.voted_addresses ++ [address] }

theorem cast_vote_already (vr : VotingRound) (address : String) (vote : Vote)
    (rep pow ts : Nat) (h : vr.has_voted address = true) :
    vr.cast_vote address vote rep pow ts =
      (vr, Except.error ("Player " ++ address ++ " has already voted")) := by
  simp [VotingRound.cast_vote, h]

theorem cast_vote_fresh (vr : VotingRound) (address : String) (vote : Vote)
    (rep pow ts : Nat) (h : vr.has_voted address = false) :
    vr.cast_vote address vote rep pow ts =
      (votedRound vr address vote rep pow ts, Except.ok ()) := by
  simp [VotingRound.cast_vote, votedRound, h]

theorem castVoteInRounds_not_found (rounds : List VotingRound) (pid : Nat)
    (addr : String) (v : Vote) (rep pow ts : Nat)
    (h : rounds.find? (fun r => r.proposal_id == pid) = none) :
    castVoteInRounds rounds pid addr v rep pow ts = (rounds, Except.ok ()) := by
  induction rounds with
  | nil => rfl
  | cons r rest ih =>
    cases hpr : (r.proposal_id == pid) with
    | true => simp [List.find?_cons, hpr] at h
    | false =>
      simp only [List.find?_cons, hpr] at h
      simp [castVoteInRounds, hpr, ih h]

theorem castVoteInRounds_found_already (rounds : List VotingRound) (pid : Nat)
    (addr : String) (v : Vote) (rep pow ts : Nat) (vr : VotingRound)
    (h : rounds.find? (fun r => r.proposal_id == pid) = some vr)
    (hv : vr.has_voted addr = true) :
    castVoteInRounds rounds pid addr v rep pow ts =
      (rounds, Except.error ("Player " ++ addr ++ " has already voted")) := by
  induction rounds with
  | nil => simp at h
  | cons r rest ih =>
    cases hpr : (r.proposal_id == pid) with
    | true =>
      have hr : r = vr := by
        simpa [List.find?_cons, hpr] using h
      subst hr
      simp [castVoteInRounds, hpr, cast_vote_already r addr v rep pow ts hv]
    | false =>
      simp only [List.find?_cons, hpr] at h
      simp [castVoteInRounds, hpr, ih h]

theorem castVoteInRounds_found_fresh (rounds : List VotingRound) (pid : Nat)
    (addr : String) (v : Vote) (rep pow ts : Nat) (vr : VotingRound)
    (h : rounds.find? (fun r => r.proposal_id == pid) = some vr)
    (hv : vr.has_voted addr = false) :
    (castVoteInRounds rounds pid addr v rep pow ts).2 = Except.ok ()
    ∧ (castVoteInRounds rounds pid addr v rep pow ts).1.find?
        (fun r => r.proposal_id == pid) = some (votedRound vr addr v rep pow ts)
    ∧ ∀ pid2, pid2 ≠ pid →
        (castVoteInRounds rounds pid addr v rep pow ts).1.find?
          (fun r => r.proposal_id == pid2) =
        rounds.find? (fun r => r.proposal_id == pid2) := by
  induction rounds with
  | nil => simp at h
  | cons r rest ih =>
    cases hpr : (r.proposal_id == pid) with
    | true =>
      have hr : r = vr := by
        simpa [List.find?_cons, hpr] using h
      subst hr
      have hid : r.proposal_id = pid := by
        simpa using hpr
      refine ⟨?_, ?_, ?_⟩
      · simp [castVoteInRounds, hpr, cast_vote_fresh r addr v rep pow ts hv]
      · have hid2 : (votedRound r addr v rep pow ts).proposal_id = pid := hid
        simp [castVoteInRounds, hpr, cast_vote_fresh r addr v rep pow ts hv,
          List.find?_cons, hid2]
      · intro pid2 hne
        have hid2 : ((votedRound r addr v rep pow ts).proposal_id == pid2) = false := by
          simp [votedRound, hid]
          omega
        have hid3 : (r.proposal_id == pid2) = false := by
          simp [hid]
          omega
        simp [castVoteInRounds, hpr, cast_vote_fresh r addr v rep pow ts hv,
          List.find?_cons, hid2, hid3]
    | false =>
      simp only [List.find?_cons, hpr] at h
      obtain ⟨ih1, ih2, ih3⟩ := ih h
      refine ⟨?_, ?_, ?_⟩
      · simp [castVoteInRounds, hpr, ih1]
      · simp [castVoteInRounds, hpr, List.find?_cons, ih2]
      · intro pid2 hne
        cases hpr2 : (r.proposal_id == pid2) with
        | true => simp [castVoteInRounds, hpr, List.find?_cons, hpr2]
        | false => simp [castVoteInRounds, hpr, List.find?_cons, hpr2, ih3 pid2 hne]

theorem updateFirstProposal_find_same (ps : List GovernanceProposal) (id : Nat)
    (f : GovernanceProposal → GovernanceProposal) (hf : ∀ p, (f p).id = p.id) :
    (updateFirstProposal ps id f).find? (fun q => q.id == id) =
      (ps.find? (fun q => q.id == id)).map f := by
  induction ps with
  | nil => rfl
  | cons p rest ih =>
    cases hp : (p.id == id) with
    | true =>
      have hfp : ((f p).id == id) = true := by
        simp only [hf]
        exact hp
      simp [updateFirstProposal, hp, List.find?_cons, hfp]
    | false =>
      simp [updateFirstProposal, hp, List.find?_cons, ih]

theorem updateFirstProposal_find_other (ps : List GovernanceProposal) (id : Nat)
    (f : GovernanceProposal → GovernanceProposal) (hf : ∀ p, (f p).id = p.id)
    (pid2 : Nat) (hne : pid2 ≠ id) :
    (updateFirstProposal ps id f).find? (fun q => q.id == pid2) =
      ps.find? (fun q => q.id == pid2) := by
  induction ps with
  | nil => rfl
  | cons p rest ih =>
    cases hp : (p.id == id) with
    | true =>
      have hpid : p.id = id := by simpa using hp
      have h1 : ((f p).id == pid2) = false := by
        simp [hf, hpid]
        omega
      have h2 : (p.id == pid2) = false := by
        simp [hpid]
        omega
      simp [updateFirstProposal, hp, List.find?_cons, h1, h2]
    | false =>
      cases hp2 : (p.id == pid2) with
      | true => simp [updateFirstProposal, hp, List.find?_cons, hp2]
      | false => simp [updateFirstProposal, hp, List.find?_cons, hp2, ih]

theorem tallyFoldl_stats (votes : List PlayerVote) (acc : GovernanceProposal) :
    (votes.foldl tallyStep acc).yes_votes + (votes.foldl tallyStep acc).no_votes
        + (votes.foldl tallyStep acc).abstain_votes
      = acc.yes_votes + acc.no_votes + acc.abstain_votes + votes.length
    ∧ (votes.foldl tallyStep acc).yes_voting_power
        + (votes.foldl tallyStep acc).no_voting_power
        + (votes.foldl tallyStep acc).abstain_voting_power
      = acc.yes_voting_power + acc.no_voting_power + acc.abstain_voting_power
        + (votes.map (fun pv => pv.voting_power)).sum
    ∧ (votes.foldl tallyStep acc).id = acc.id
    ∧ (votes.foldl tallyStep acc).executed = acc.executed
    ∧ (votes.foldl tallyStep acc).voting_round = acc.voting_round
    ∧ (votes.foldl tallyStep acc).total_voting_rounds = acc.total_voting_rounds := by
  induction votes generalizing acc with
  | nil => simp
  | cons pv rest ih =>
    obtain ⟨ih1, ih2, ih3, ih4, ih5, ih6⟩ := ih (tallyStep acc pv)
    have hstep :
        (tallyStep acc pv).yes_votes + (tallyStep acc pv).no_votes
            + (tallyStep acc pv).abstain_votes
          = acc.yes_votes + acc.no_votes + acc.abstain_votes + 1
        ∧ (tallyStep acc pv).yes_voting_power + (tallyStep acc pv).no_voting_power
            + (tallyStep acc pv).abstain_voting_power
          = acc.yes_voting_power + acc.no_voting_power + acc.abstain_voting_power
            + pv.voting_power
        ∧ (tallyStep acc pv).id = acc.id
        ∧ (tallyStep acc pv).executed = acc.executed
        ∧ (tallyStep acc pv).voting_round = acc.voting_round
        ∧ (tallyStep acc pv).total_voting_rounds = acc.total_voting_rounds := by
      cases hv : pv.vote <;> simp [tallyStep, hv] <;> omega
    obtain ⟨hs1, hs2, hs3, hs4, hs5, hs6⟩ := hstep
    refine ⟨?_, ?_, ?_, ?_, ?_, ?_⟩
    · simp only [List.foldl_cons, List.length_cons, ih1, hs1]
      omega
    · simp only [List.foldl_cons, List.map_cons, List.sum_cons, ih2, hs2]
      omega
    · simp only [List.foldl_cons, ih3, hs3]
    · simp only [List.foldl_cons, ih4, hs4]
    · simp only [List.foldl_cons, ih5, hs5]
    · simp only [List.foldl_cons, ih6, hs6]

theorem tallyFrom_stats (votes : List PlayerVote) (p : GovernanceProposal) :
    (tallyFrom votes p).yes_votes + (tallyFrom votes p).no_votes
        + (tallyFrom votes p).abstain_votes = votes.length
    ∧ (tallyFrom votes p).yes_voting_power + (tallyFrom votes p).no_voting_power
        + (tallyFrom votes p).abstain_voting_power
      = (votes.map (fun pv => pv.voting_power)).sum
    ∧ (tallyFrom votes p).id = p.id
    ∧ (tallyFrom votes p).executed = p.executed
    ∧ (tallyFrom votes p).voting_round = p.voting_round
    ∧ (tallyFrom votes p).total_voting_rounds = p.total_voting_rounds := by
  have h := tallyFoldl_stats votes
    { p with
        yes_votes := 0
        no_votes := 0
        abstain_votes := 0
        yes_voting_power := 0
        no_voting_power := 0
        abstain_voting_power := 0 }
  simpa [tallyFrom] using h

/-- The outcome of `GovernanceState::vote` when no proposal has the id. -/
theorem vote_not_found (gs : GovernanceState) (pid : Nat) (addr : String)
    (v : Vote) (rep pow ts : Nat) (h : gs.get_proposal pid = none) :
    gs.vote pid addr v rep pow ts = (gs, Except.error "Proposal not found") := by
  simp [GovernanceState.vote, h]

/-- The outcome of `GovernanceState::vote` when voting is closed. -/
theorem vote_closed (gs : GovernanceState) (pid : Nat) (addr : String)
    (v : Vote) (rep pow ts : Nat) (p : GovernanceProposal)
    (h : gs.get_proposal pid = some p) (hopen : p.is_voting_open = false) :
    gs.vote pid addr v rep pow ts = (gs, Except.error "Voting period has ended") := by
  simp [GovernanceState.vote, h, hopen]

/-- The outcome of `GovernanceState::vote` when the proposal is open but
the parallel `voting_rounds` collection has no round with its id. -/
theorem vote_no_round (gs : GovernanceState) (pid : Nat) (addr : String)
    (v : Vote) (rep pow ts : Nat) (p : GovernanceProposal)
    (h : gs.get_proposal pid = some p) (hopen : p.is_voting_open = true)
    (hfind : gs.voting_rounds.find? (fun r => r.proposal_id == pid) = none) :
    gs.vote pid addr v rep pow ts = (gs, Except.ok ()) := by
  have hc := castVoteInRounds_not_found gs.voting_rounds pid addr v rep pow ts hfind
  simp [GovernanceState.vote, h, hopen, hc, hfind]

/-- The outcome of `GovernanceState::vote` on a repeated address. -/
theorem vote_already (gs : GovernanceState) (pid : Nat) (addr : String)
    (v : Vote) (rep pow ts : Nat) (p : GovernanceProposal) (vr : VotingRound)
    (h : gs.get_proposal pid = some p) (hopen : p.is_voting_open = true)
    (hfind : gs.voting_rounds.find? (fun r => r.proposal_id == pid) = some vr)
    (hv : vr.has_voted addr = true) :
    gs.vote pid addr v rep pow ts =
      (gs, Except.error ("Player " ++ addr ++ " has already voted")) := by
  have hc := castVoteInRounds_found_already gs.voting_rounds pid addr v rep pow ts vr hfind hv
  simp [GovernanceState.vote, h, hopen, hc]

/-- The outcome of a successful `GovernanceState::vote`: the first round
with the id is extended and the first proposal with the id is retallied
from that round's complete vote list. -/
theorem vote_success (gs : GovernanceState) (pid : Nat) (addr : String)
    (v : Vote) (rep pow ts : Nat) (p : GovernanceProposal) (vr : VotingRound)
    (h : gs.get_proposal pid = some p) (hopen : p.is_voting_open = true)
    (hfind : gs.voting_rounds.find? (fun r => r.proposal_id == pid) = some vr)
    (hv : vr.has_voted addr = false) :
    gs.vote pid addr v rep pow ts =
      ({ gs with
          voting_rounds := (castVoteInRounds gs.voting_rounds pid addr v rep pow ts).1
          proposals := updateFirstProposal gs.proposals pid
            (tallyFrom (votedRound vr addr v rep pow ts).votes) },
       Except.ok ()) := by
  obtain ⟨h2, hfind2, -⟩ :=
    castVoteInRounds_found_fresh gs.voting_rounds pid addr v rep pow ts vr hfind hv
  simp [GovernanceState.vote, h, hopen, h2, hfind2]

/-- A failed `vote` leaves the whole state unchanged. -/
theorem vote_error_state (gs : GovernanceState) (pid : Nat) (addr : String)
    (v : Vote) (rep pow ts : Nat) (e : String)
    (h : (gs.vote pid addr v rep pow ts).2 = Except.error e) :
    (gs.vote pid addr v rep pow ts).1 = gs := by
  cases hg : gs.get_proposal pid with
  | none => rw [vote_not_found gs pid addr v rep pow ts hg]
  | some p =>
    cases hopen : p.is_voting_open with
    | false => rw [vote_closed gs pid addr v rep pow ts p hg hopen]
    | true =>
      cases hfind : gs.voting_rounds.find? (fun r => r.proposal_id == pid) with
      | none =>
        rw [vote_no_round gs pid addr v rep pow ts p hg hopen hfind] at h
        exact absurd h (by simp)
      | some vr =>
        cases hv : vr.has_voted addr with
        | true => rw [vote_already gs pid addr v rep pow ts p vr hg hopen hfind hv]
        | false =>
          rw [vote_success gs pid addr v rep pow ts p vr hg hopen hfind hv] at h
          exact absurd h (by simp)

/-- Lemma: `vote` never touches a proposal that is already executed: its first
carrier keeps resolving to the same record. -/
theorem vote_preserves_executed (gs : GovernanceState) (pid : Nat) (addr : String)
    (v : Vote) (rep pow ts : Nat) (pid0 : Nat) (p0 : GovernanceProposal)
    (h0 : gs.get_proposal pid0 = some p0) (hexec : p0.executed = true) :
    ((gs.vote pid addr v rep pow ts).1).get_proposal pid0 = some p0 := by
  by_cases hpe : pid0 = pid
  · subst hpe
    have hopen : p0.is_voting_open = false := by
      simp [GovernanceProposal.is_voting_open, hexec]
    rw [vote_closed gs pid0 addr v rep pow ts p0 h0 hopen]
    exact h0
  · cases hg : gs.get_proposal pid with
    | none =>
      rw [vote_not_found gs pid addr v rep pow ts hg]
      exact h0
    | some p =>
      cases hopen : p.is_voting_open with
      | false =>
        rw [vote_closed gs pid addr v rep pow ts p hg hopen]
        exact h0
      | true =>
        cases hfind : gs.voting_rounds.find? (fun r => r.proposal_id == pid) with
        | none =>
          rw [vote_no_round gs pid addr v rep pow ts p hg hopen hfind]
          exact h0
        | some vr =>
          cases hv : vr.has_voted addr with
          | true =>
            rw [vote_already gs pid addr v rep pow ts p vr hg hopen hfind hv]
            exact h0
          | false =>
            rw [vote_success gs pid addr v rep pow ts p vr hg hopen hfind hv]
            have := updateFirstProposal_find_other gs.proposals pid
              (tallyFrom (votedRound vr addr v rep pow ts).votes)
              (fun q => (tallyFrom_stats (votedRound vr addr v rep pow ts).votes q).2.2.1)
              pid0 hpe
            simpa [GovernanceState.get_proposal, this] using h0

/-- The outcome of `execute_proposal` on an unknown id. -/
theorem execute_not_found (gs : GovernanceState) (pid : Nat)
    (h : gs.get_proposal pid = none) :
    gs.execute_proposal pid = (gs, Except.error "Proposal not found") := by
  simp [GovernanceState.execute_proposal, h]

/-- The outcome of `execute_proposal` on an already executed proposal. -/
theorem execute_already (gs : GovernanceState) (pid : Nat) (p : GovernanceProposal)
    (h : gs.get_proposal pid = some p) (hexec : p.executed = true) :
    gs.execute_proposal pid = (gs, Except.error "Proposal already executed") := by
  simp [GovernanceState.execute_proposal, h, hexec]

/-- The outcome of `execute_proposal` on a pending proposal that has not
passed: no state change. -/
theorem execute_failed (gs : GovernanceState) (pid : Nat) (p : GovernanceProposal)
    (h : gs.get_proposal pid = some p) (hexec : p.executed = false)
    (hpass : p.has_passed = false) :
    gs.execute_proposal pid = (gs, Except.ok false) := by
  simp [GovernanceState.execute_proposal, h, hexec, hpass]

/-- The outcome of `execute_proposal` on a pending proposal that has
passed: the executed flag is set on the first carrier of the id. -/
theorem execute_passed (gs : GovernanceState) (pid : Nat) (p : GovernanceProposal)
    (h : gs.get_proposal pid = some p) (hexec : p.executed = false)
    (hpass : p.has_passed = true) :
    gs.execute_proposal pid =
      ({ gs with
          proposals := updateFirstProposal gs.proposals pid
            (fun q => { q with executed := true }) },
       Except.ok true) := by
  simp [GovernanceState.execute_proposal, h, hexec, hpass]

/-- Lemma: `execute_proposal` never resets an executed flag of another proposal. -/
theorem execute_preserves_executed (gs : GovernanceState) (pid pid0 : Nat)
    (p0 : GovernanceProposal)
    (h0 : gs.get_proposal pid0 = some p0) (hexec : p0.executed = true) :
    ((gs.execute_proposal pid).1).get_proposal pid0 = some p0 := by
  by_cases hpe : pid0 = pid
  · subst hpe
    rw [execute_already gs pid0 p0 h0 hexec]
    exact h0
  · cases hg : gs.get_proposal pid with
    | none =>
      rw [execute_not_found gs pid hg]
      exact h0
    | some p =>
      cases hex : p.executed with
      | true =>
        rw [execute_already gs pid p hg hex]
        exact h0
      | false =>
        cases hpass : p.has_passed with
        | false =>
          rw [execute_failed gs pid p hg hex hpass]
          exact h0
        | true =>
          rw [execute_passed gs pid p hg hex hpass]
          have := updateFirstProposal_find_other gs.proposals pid
            (fun q => { q with executed := true }) (fun _ => rfl) pid0 hpe
          simpa [GovernanceState.get_proposal, this] using h0

/-! ### Claim theorems for the governance ledger -/

/-- C3 (amended): `vote` fails with `ProposalNotFound` when no proposal
has the id, with `VotingClosed` when the (first) proposal with the id is
not open; when a `VotingRound` with that id exists it fails with
`AlreadyVoted` exactly when the address is already marked as having voted
— regardless of the choice — and otherwise succeeds, appending exactly one
`PlayerVote` to that round and marking the address.  (Without such a
round, `vote` can return `Ok` while recording nothing; see the
out-of-sync counterexample.) -/
theorem vote_characterization (gs : GovernanceState) (pid : Nat) (addr : String)
    (v : Vote) (rep pow ts : Nat) :
    (gs.get_proposal pid = none →
      gs.vote pid addr v rep pow ts = (gs, Except.error "Proposal not found"))
    ∧ (∀ p, gs.get_proposal pid = some p → p.is_voting_open = false →
        gs.vote pid addr v rep pow ts = (gs, Except.error "Voting period has ended"))
    ∧ (∀ p vr, gs.get_proposal pid = some p → p.is_voting_open = true →
        gs.voting_rounds.find? (fun r => r.proposal_id == pid) = some vr →
        (vr.has_voted addr = true →
          gs.vote pid addr v rep pow ts =
            (gs, Except.error ("Player " ++ addr ++ " has already voted")))
        ∧ (vr.has_voted addr = false →
            (gs.vote pid addr v rep pow ts).2 = Except.ok ()
            ∧ ((gs.vote pid addr v rep pow ts).1).voting_rounds.find?
                (fun r => r.proposal_id == pid) =
              some { vr with
                  votes := vr.votes ++
                    [{ address := addr
                       proposal_id := pid
                       vote := v
                       voter_reputation := rep
                       voting_power := pow
                       timestamp := ts }]
                  voted_addresses := vr.voted_addresses ++ [addr] })) := by
  refine ⟨vote_not_found gs pid addr v rep pow ts,
    fun p h hopen => vote_closed gs pid addr v rep pow ts p h hopen,
    fun p vr h hopen hfind => ⟨fun hv => vote_already gs pid addr v rep pow ts p vr h hopen hfind hv, ?_⟩⟩
  intro hv
  have hvrid : vr.proposal_id = pid := by
    have := List.find?_some hfind
    simpa using this
  obtain ⟨h2, hfind2, -⟩ :=
    castVoteInRounds_found_fresh gs.voting_rounds pid addr v rep pow ts vr hfind hv
  rw [vote_success gs pid addr v rep pow ts p vr h hopen hfind hv]
  constructor
  · rfl
  · rw [show ({ gs with
        voting_rounds := (castVoteInRounds gs.voting_rounds pid addr v rep pow ts).1
        proposals := updateFirstProposal gs.proposals pid
          (tallyFrom (votedRound vr addr v rep pow ts).votes) } : GovernanceState).voting_rounds
      = (castVoteInRounds gs.voting_rounds pid addr v rep pow ts).1 from rfl]
    rw [hfind2]
    rw [votedRound, hvrid]

/-- C3 (counterexample): a state whose proposal 1 is open but whose
`voting_rounds` collection is empty — the claim quantifies over every
`GovernanceState` — makes `vote` return `Ok` while appending no
`PlayerVote` and marking no address: the state is returned unchanged. -/
theorem vote_ok_without_round_counterexample :
    GovernanceState.vote
      { next_proposal_id := 2
        proposals := [GovernanceProposal.new 1 ProposalType.ChangePayoff "d"]
        voting_rounds := []
        dependent_apps := [] } 1 "alice" Vote.Yes 75 112 1000 =
      ({ next_proposal_id := 2
         proposals := [GovernanceProposal.new 1 ProposalType.ChangePayoff "d"]
         voting_rounds := []
         dependent_apps := [] }, Except.ok ()) := by
  rfl

/-- C3 (witness): with proposal 1 open and a voting round recording that
`"alice"` has voted, a second vote by `"alice"` with a different choice
fails with the already-voted error. -/
theorem vote_characterization_witness :
    GovernanceState.vote
      { next_proposal_id := 2
        proposals := [GovernanceProposal.new 1 ProposalType.ChangePayoff "d"]
        voting_rounds := [{ proposal_id := 1
                            votes := [{ address := "alice", proposal_id := 1,
                                        vote := Vote.Yes, voter_reputation := 75,
                                        voting_power := 112, timestamp := 1000 }]
                            voted_addresses := ["alice"] }]
        dependent_apps := [] } 1 "alice" Vote.No 75 112 1001 =
      ({ next_proposal_id := 2
         proposals := [GovernanceProposal.new 1 ProposalType.ChangePayoff "d"]
         voting_rounds := [{ proposal_id := 1
                             votes := [{ address := "alice", proposal_id := 1,
                                         vote := Vote.Yes, voter_reputation := 75,
                                         voting_power := 112, timestamp := 1000 }]
                             voted_addresses := ["alice"] }]
         dependent_apps := [] }, Except.error ("Player " ++ "alice" ++ " has already voted")) := by
  have h := (vote_characterization
    { next_proposal_id := 2
      proposals := [GovernanceProposal.new 1 ProposalType.ChangePayoff "d"]
      voting_rounds := [{ proposal_id := 1
                          votes := [{ address := "alice", proposal_id := 1,
                                      vote := Vote.Yes, voter_reputation := 75,
                                      voting_power := 112, timestamp := 1000 }]
                          voted_addresses := ["alice"] }]
      dependent_apps := [] } 1 "alice" Vote.No 75 112 1001).2.2
    (GovernanceProposal.new 1 ProposalType.ChangePayoff "d")
    { proposal_id := 1
      votes := [{ address := "alice", proposal_id := 1, vote := Vote.Yes,
                  voter_reputation := 75, voting_power := 112, timestamp := 1000 }]
      voted_addresses := ["alice"] }
    rfl (by decide) rfl
  exact h.1 (by decide)

/-- C10: when a proposal with the id exists and is open but no
`VotingRound` carries that id, `vote` returns `Ok ()` and leaves the
state — votes, voted addresses and all six counters — unchanged. -/
theorem vote_out_of_sync_silent_success (gs : GovernanceState) (pid : Nat)
    (addr : String) (v : Vote) (rep pow ts : Nat) (p : GovernanceProposal)
    (h : gs.get_proposal pid = some p) (hopen : p.is_voting_open = true)
    (hfind : gs.voting_rounds.find? (fun r => r.proposal_id == pid) = none) :
    gs.vote pid addr v rep pow ts = (gs, Except.ok ()) :=
  vote_no_round gs pid addr v rep pow ts p h hopen hfind

/-- C10 (witness): the silent success at a concrete out-of-sync state. -/
theorem vote_out_of_sync_silent_success_witness :
    GovernanceState.vote
      { next_proposal_id := 3
        proposals := [GovernanceProposal.new 2 ProposalType.AddStrategy "s"]
        voting_rounds := [VotingRound.new 1]
        dependent_apps := [] } 2 "bob" Vote.Abstain 40 20 5 =
      ({ next_proposal_id := 3
         proposals := [GovernanceProposal.new 2 ProposalType.AddStrategy "s"]
         voting_rounds := [VotingRound.new 1]
         dependent_apps := [] }, Except.ok ()) :=
  vote_out_of_sync_silent_success _ 2 "bob" Vote.Abstain 40 20 5
    (GovernanceProposal.new 2 ProposalType.AddStrategy "s") rfl (by decide) rfl

/-- C9: whenever `vote`, `execute_proposal` or `register_dependent_app`
returns an error, the whole `GovernanceState` is left unchanged. -/
theorem governance_error_atomicity (gs : GovernanceState) :
    (∀ pid addr v rep pow ts e,
      (gs.vote pid addr v rep pow ts).2 = Except.error e →
      (gs.vote pid addr v rep pow ts).1 = gs)
    ∧ (∀ pid e, (gs.execute_proposal pid).2 = Except.error e →
        (gs.execute_proposal pid).1 = gs)
    ∧ (∀ app_id app_name mt e,
        (gs.register_dependent_app app_id app_name mt).2 = Except.error e →
        (gs.register_dependent_app app_id app_name mt).1 = gs) := by
  refine ⟨fun pid addr v rep pow ts e h => vote_error_state gs pid addr v rep pow ts e h,
    ?_, ?_⟩
  · intro pid e h
    cases hg : gs.get_proposal pid with
    | none => rw [execute_not_found gs pid hg]
    | some p =>
      cases hex : p.executed with
      | true => rw [execute_already gs pid p hg hex]
      | false =>
        cases hpass : p.has_passed with
        | false =>
          rw [execute_failed gs pid p hg hex hpass] at h
          exact absurd h (by simp)
        | true =>
          rw [execute_passed gs pid p hg hex hpass] at h
          exact absurd h (by simp)
  · intro app_id app_name mt e h
    cases hdup : gs.dependent_apps.any (fun app => app.app_id == app_id) with
    | true => simp [GovernanceState.register_dependent_app, hdup]
    | false =>
      rw [show gs.register_dependent_app app_id app_name mt =
          ({ gs with
              dependent_apps := gs.dependent_apps ++
                [{ app_id := app_id, app_name := app_name,
                   min_reputation_tier := mt, registered_at := 0 }] },
           Except.ok ()) from by
        simp [GovernanceState.register_dependent_app, hdup]] at h
      exact absurd h (by simp)

/-- C9 (witness): a vote on the empty ledger fails and changes nothing. -/
theorem governance_error_atomicity_witness :
    (GovernanceState.new.vote 1 "alice" Vote.Yes 50 50 0).1 = GovernanceState.new :=
  (governance_error_atomicity GovernanceState.new).1 1 "alice" Vote.Yes 50 50 0
    "Proposal not found" rfl

/-- C5: `has_passed` is `false` when the total voting power is zero and
otherwise holds exactly when the yes power strictly exceeds half the total
under integer division. -/
theorem has_passed_characterization (p : GovernanceProposal) :
    (p.yes_voting_power + p.no_voting_power + p.abstain_voting_power = 0 →
      p.has_passed = false)
    ∧ (p.has_passed = true ↔
        (p.yes_voting_power + p.no_voting_power + p.abstain_voting_power ≠ 0
          ∧ (p.yes_voting_power + p.no_voting_power + p.abstain_voting_power) / 2
              < p.yes_voting_power)) := by
  constructor
  · intro h
    simp [GovernanceProposal.has_passed, h]
  · by_cases h : p.yes_voting_power + p.no_voting_power + p.abstain_voting_power = 0
    · simp [GovernanceProposal.has_passed, h]
    · simp [GovernanceProposal.has_passed, h]

/-- C5 (witness): yes power 112 against no power 20 passes (112 > 66); an
exact 50–50 tie fails (50 > 50 is false). -/
theorem has_passed_characterization_witness :
    ({ GovernanceProposal.new 1 ProposalType.ChangePayoff "d" with
        yes_voting_power := 112, no_voting_power := 20 } : GovernanceProposal).has_passed = true
    ∧ ({ GovernanceProposal.new 1 ProposalType.ChangePayoff "d" with
        yes_voting_power := 50, no_voting_power := 50 } : GovernanceProposal).has_passed = false := by
  constructor
  · exact (has_passed_characterization
      { GovernanceProposal.new 1 ProposalType.ChangePayoff "d" with
        yes_voting_power := 112, no_voting_power := 20 }).2.mpr (by decide)
  · decide

/-- C6: `execute_proposal` fails with `ProposalNotFound` on an unknown id
and with `AlreadyExecuted` exactly when the proposal is already executed;
otherwise it returns `has_passed`, setting `executed` exactly on success,
so a failed execution leaves the state unchanged and can be retried, while
after a successful one every re-execution fails with `AlreadyExecuted`
and no `vote` or `execute_proposal` call ever clears the flag. -/
theorem execute_proposal_characterization (gs : GovernanceState) (pid : Nat) :
    (gs.get_proposal pid = none →
      gs.execute_proposal pid = (gs, Except.error "Proposal not found"))
    ∧ (∀ p, gs.get_proposal pid = some p → p.executed = true →
        gs.execute_proposal pid = (gs, Except.error "Proposal already executed"))
    ∧ (∀ p, gs.get_proposal pid = some p → p.executed = false →
        (gs.execute_proposal pid).2 = Except.ok p.has_passed
        ∧ (p.has_passed = false → (gs.execute_proposal pid).1 = gs)
        ∧ (p.has_passed = true →
            ((gs.execute_proposal pid).1).get_proposal pid =
              some { p with executed := true }
            ∧ ((gs.execute_proposal pid).1).execute_proposal pid =
              ((gs.execute_proposal pid).1, Except.error "Proposal already executed")))
    ∧ (∀ p, gs.get_proposal pid = some p → p.executed = true →
        (∀ pid2 addr v rep pow ts,
          ((gs.vote pid2 addr v rep pow ts).1).get_proposal pid = some p)
        ∧ (∀ pid2, ((gs.execute_proposal pid2).1).get_proposal pid = some p)) := by
  refine ⟨execute_not_found gs pid,
    fun p h hex => execute_already gs pid p h hex, ?_, ?_⟩
  · intro p h hex
    have hget : ∀ hpass : p.has_passed = true,
        ((gs.execute_proposal pid).1).get_proposal pid = some { p with executed := true } := by
      intro hpass
      rw [execute_passed gs pid p h hex hpass]
      have := updateFirstProposal_find_same gs.proposals pid
        (fun q => { q with executed := true }) (fun _ => rfl)
      simp only [GovernanceState.get_proposal] at h ⊢
      rw [this, h]
      rfl
    refine ⟨?_, ?_, ?_⟩
    · cases hpass : p.has_passed with
      | false => rw [execute_failed gs pid p h hex hpass]
      | true => rw [execute_passed gs pid p h hex hpass]
    · intro hpass
      rw [execute_failed gs pid p h hex hpass]
    · intro hpass
      refine ⟨hget hpass, ?_⟩
      exact execute_already ((gs.execute_proposal pid).1) pid { p with executed := true }
        (hget hpass) rfl
  · intro p h hex
    exact ⟨fun pid2 addr v rep pow ts =>
        vote_preserves_executed gs pid2 addr v rep pow ts pid p h hex,
      fun pid2 => execute_preserves_executed gs pid2 pid p h hex⟩

/-- C6 (witness): a pending proposal with yes power 112 against 20
executes successfully, and executing it again fails. -/
theorem execute_proposal_characterization_witness :
    (GovernanceState.execute_proposal
      { next_proposal_id := 2
        proposals := [{ GovernanceProposal.new 1 ProposalType.ChangePayoff "d" with
                        yes_voting_power := 112, no_voting_power := 20 }]
        voting_rounds := [VotingRound.new 1]
        dependent_apps := [] } 1).2 = Except.ok true
    ∧ ((GovernanceState.execute_proposal
      { next_proposal_id := 2
        proposals := [{ GovernanceProposal.new 1 ProposalType.ChangePayoff "d" with
                        yes_voting_power := 112, no_voting_power := 20 }]
        voting_rounds := [VotingRound.new 1]
        dependent_apps := [] } 1).1).execute_proposal 1 =
      ((GovernanceState.execute_proposal
        { next_proposal_id := 2
          proposals := [{ GovernanceProposal.new 1 ProposalType.ChangePayoff "d" with
                          yes_voting_power := 112, no_voting_power := 20 }]
          voting_rounds := [VotingRound.new 1]
          dependent_apps := [] } 1).1, Except.error "Proposal already executed") := by
  have h := (execute_proposal_characterization
    { next_proposal_id := 2
      proposals := [{ GovernanceProposal.new 1 ProposalType.ChangePayoff "d" with
                      yes_voting_power := 112, no_voting_power := 20 }]
      voting_rounds := [VotingRound.new 1]
      dependent_apps := [] } 1).2.2.1
    { GovernanceProposal.new 1 ProposalType.ChangePayoff "d" with
      yes_voting_power := 112, no_voting_power := 20 }
    rfl rfl
  have hpass : ({ GovernanceProposal.new 1 ProposalType.ChangePayoff "d" with
      yes_voting_power := 112, no_voting_power := 20 } : GovernanceProposal).has_passed = true := by
    decide
  constructor
  · rw [h.1, hpass]
  · exact (h.2.2 hpass).2

/-- C2 (amended): `register_dependent_app` fails with `DuplicateApp`
exactly when an app with the id is already registered, and on success
appends a `DependentApp` whose `registered_at` is hardcoded to `0` — the
method takes no timestamp parameter, so the stored registration time is
not an externally supplied value. -/
theorem register_dependent_app_characterization (gs : GovernanceState)
    (app_id app_name : String) (mt : Nat) :
    ((∃ app ∈ gs.dependent_apps, app.app_id = app_id) →
      gs.register_dependent_app app_id app_name mt =
        (gs, Except.error ("App " ++ app_id ++ " already registered")))
    ∧ ((∀ app ∈ gs.dependent_apps, app.app_id ≠ app_id) →
        gs.register_dependent_app app_id app_name mt =
          ({ gs with
              dependent_apps := gs.dependent_apps ++
                [{ app_id := app_id
                   app_name := app_name
                   min_reputation_tier := mt
                   registered_at := 0 }] },
           Except.ok ())) := by
  constructor
  · intro hdup
    have hany : gs.dependent_apps.any (fun app => app.app_id == app_id) = true := by
      rw [List.any_eq_true]
      obtain ⟨app, hmem, heq⟩ := hdup
      exact ⟨app, hmem, by simpa using heq⟩
    simp [GovernanceState.register_dependent_app, hany]
  · intro hfresh
    have hany : gs.dependent_apps.any (fun app => app.app_id == app_id) = false := by
      rw [List.any_eq_false]
      intro app hmem
      simpa using hfresh app hmem
    simp [GovernanceState.register_dependent_app, hany]

/-- C2 (counterexample): registering an app stores `registered_at = 0`
whatever registration time the environment intended to supply — here the
spec-worded variant with externally supplied timestamp 7 produces a
different state than the code. -/
theorem register_dependent_app_ignores_timestamp :
    (GovernanceState.new.register_dependent_app "wallet" "Wallet" 1).1
      ≠ (register_dependent_app_spec GovernanceState.new "wallet" "Wallet" 1 7).1
    ∧ ((GovernanceState.new.register_dependent_app "wallet" "Wallet" 1).1.dependent_apps.map
        (fun a => a.registered_at)) = [0] := by
  constructor
  · decide
  · rfl

/-- C2 (witness): registering the same app id twice fails with the
duplicate error; the first registration appends with `registered_at = 0`. -/
theorem register_dependent_app_characterization_witness :
    ((GovernanceState.new.register_dependent_app "nft_app" "NFT" 1).1).register_dependent_app
        "nft_app" "NFT" 1 =
      ((GovernanceState.new.register_dependent_app "nft_app" "NFT" 1).1,
       Except.error ("App " ++ "nft_app" ++ " already registered")) := by
  exact ((register_dependent_app_characterization
    ((GovernanceState.new.register_dependent_app "nft_app" "NFT" 1).1)
    "nft_app" "NFT" 1).1
    ⟨{ app_id := "nft_app", app_name := "NFT", min_reputation_tier := 1, registered_at := 0 },
      by decide, rfl⟩)

/-- A single successful `vote` preserves the tally invariant: the voted
proposal is retallied from the complete vote list of its round, and every
other proposal keeps both its counters and its vote list. -/
theorem vote_preserves_tally_ok (gs : GovernanceState) (pid : Nat) (addr : String)
    (v : Vote) (rep pow ts : Nat) (gs' : GovernanceState) (u : Unit)
    (hok : tally_ok gs)
    (h : gs.vote pid addr v rep pow ts = (gs', Except.ok u)) :
    tally_ok gs' := by
  cases hg : gs.get_proposal pid with
  | none =>
    rw [vote_not_found gs pid addr v rep pow ts hg] at h
    exact absurd (congrArg Prod.snd h) (by simp)
  | some p =>
    cases hopen : p.is_voting_open with
    | false =>
      rw [vote_closed gs pid addr v rep pow ts p hg hopen] at h
      exact absurd (congrArg Prod.snd h) (by simp)
    | true =>
      cases hfind : gs.voting_rounds.find? (fun r => r.proposal_id == pid) with
      | none =>
        rw [vote_no_round gs pid addr v rep pow ts p hg hopen hfind] at h
        have hgs : gs = gs' := congrArg Prod.fst h
        rw [← hgs]
        exact hok
      | some vr =>
        cases hv : vr.has_voted addr with
        | true =>
          rw [vote_already gs pid addr v rep pow ts p vr hg hopen hfind hv] at h
          exact absurd (congrArg Prod.snd h) (by simp)
        | false =>
          rw [vote_success gs pid addr v rep pow ts p vr hg hopen hfind hv] at h
          have hgs' : gs' =
              { gs with
                voting_rounds := (castVoteInRounds gs.voting_rounds pid addr v rep pow ts).1
                proposals := updateFirstProposal gs.proposals pid
                  (tallyFrom (votedRound vr addr v rep pow ts).votes) } :=
            (congrArg Prod.fst h).symm
          subst hgs'
          obtain ⟨-, hfind2, hother⟩ :=
            castVoteInRounds_found_fresh gs.voting_rounds pid addr v rep pow ts vr hfind hv
          have hfid : ∀ q, ((tallyFrom (votedRound vr addr v rep pow ts).votes) q).id = q.id :=
            fun q => (tallyFrom_stats (votedRound vr addr v rep pow ts).votes q).2.2.1
          intro p' hmem' hfind'
          by_cases hc : p'.id = pid
          · have hsame := updateFirstProposal_find_same gs.proposals pid
              (tallyFrom (votedRound vr addr v rep pow ts).votes) hfid
            have hg' : List.find? (fun q => q.id == pid) gs.proposals = some p := hg
            simp only at hfind'
            rw [hc, hsame, hg'] at hfind'
            have hp' : p' = tallyFrom (votedRound vr addr v rep pow ts).votes p := by
              simpa using hfind'.symm
            have hvf : votesFor
                { gs with
                  voting_rounds := (castVoteInRounds gs.voting_rounds pid addr v rep pow ts).1
                  proposals := updateFirstProposal gs.proposals pid
                    (tallyFrom (votedRound vr addr v rep pow ts).votes) } p'.id =
                (votedRound vr addr v rep pow ts).votes := by
              rw [hc]
              simp only [votesFor]
              rw [hfind2]
            rw [hvf, hp']
            obtain ⟨s1, s2, -, -, -, -⟩ :=
              tallyFrom_stats (votedRound vr addr v rep pow ts).votes p
            exact ⟨s1, s2⟩
          · have hoth := updateFirstProposal_find_other gs.proposals pid
              (tallyFrom (votedRound vr addr v rep pow ts).votes) hfid p'.id hc
            simp only at hfind'
            rw [hoth] at hfind'
            have hmem : p' ∈ gs.proposals := List.mem_of_find?_eq_some hfind'
            have hcounts := hok p' hmem hfind'
            have hvf : votesFor
                { gs with
                  voting_rounds := (castVoteInRounds gs.voting_rounds pid addr v rep pow ts).1
                  proposals := updateFirstProposal gs.proposals pid
                    (tallyFrom (votedRound vr addr v rep pow ts).votes) } p'.id =
                votesFor gs p'.id := by
              simp only [votesFor]
              rw [hother p'.id hc]
            rw [hvf]
            exact hcounts

/-- C4: after every sequence of successful `vote` calls on a state
satisfying the tally invariant — each proposal's three vote counters sum
to the number of recorded votes for it and its three power counters sum
to their total voting power — the resulting state still satisfies it,
because each successful vote zeroes and recomputes all six counters from
the complete vote list of the proposal's round. -/
theorem tally_invariant_voteMany (reqs : List (Nat × String × Vote × Nat × Nat × Nat))
    (gs gs' : GovernanceState) :
    tally_ok gs → gs.voteMany reqs = some gs' → tally_ok gs' := by
  induction reqs generalizing gs with
  | nil =>
    intro hok h
    simp only [GovernanceState.voteMany, Option.some.injEq] at h
    rw [← h]
    exact hok
  | cons a rest ih =>
    intro hok h
    rw [GovernanceState.voteMany] at h
    cases hcall : gs.vote a.1 a.2.1 a.2.2.1 a.2.2.2.1 a.2.2.2.2.1 a.2.2.2.2.2 with
    | mk gs1 res =>
      rw [hcall] at h
      cases res with
      | error e => simp at h
      | ok u =>
        exact ih gs1
          (vote_preserves_tally_ok gs a.1 a.2.1 a.2.2.1 a.2.2.2.1 a.2.2.2.2.1 a.2.2.2.2.2
            gs1 u hok hcall) h

/-- C4 (witness): a fresh proposal voted on by two distinct addresses
still satisfies the tally invariant. -/
theorem tally_invariant_voteMany_witness :
    tally_ok
      (((GovernanceState.new.create_proposal ProposalType.ChangePayoff "d").1.voteMany
        [(1, "alice", Vote.Yes, 75, 112, 1000), (1, "bob", Vote.No, 40, 20, 1001)]).getD
        GovernanceState.new) := by
  cases hh : (GovernanceState.new.create_proposal ProposalType.ChangePayoff "d").1.voteMany
      [(1, "alice", Vote.Yes, 75, 112, 1000), (1, "bob", Vote.No, 40, 20, 1001)] with
  | none => exact absurd hh (by decide)
  | some g =>
    refine tally_invariant_voteMany _ _ g ?_ hh
    intro p hp hf
    have hp' : p = GovernanceProposal.new 1 ProposalType.ChangePayoff "d" := by
      simpa [GovernanceState.create_proposal, GovernanceState.new] using hp
    subst hp'
    exact ⟨rfl, rfl⟩

end TrustGame
